import Mathlib

/-!
Shallow embedding of `hangups/client.py` (class `Client`), the single source
file of this repository, together with theorems checking the specification's
claims about it.

Modelling conventions:
* The Python object state (`self._cookies`, `self._client_id`, `self._email`,
  `self._last_active_secs`, `self._active_client_state`,
  `self._request_header`) is an explicit `ClientState` record threaded through
  the functions.
* Network I/O (`self.getselfinfo()`, `self.setactiveclient(...)`,
  `http_utils.fetch`, `self._channel.send_maps`) is modelled by recording the
  calls in an explicit trace and by passing the would-be results of the calls
  in as parameters (oracles).  Since the whole client runs in a single
  cooperative event loop, `yield from` sequencing is modelled by the order of
  the trace: an effect earlier in the list completes before a later one
  starts.
* Python exceptions are modelled by an `Option PyError` component of each
  result (`none` = returned normally); `KeyError` / `IndexError` /
  `exceptions.NetworkError` are the three kinds the analysed code can raise.
* Time (`time.time()`) is modelled as an integer number of seconds passed in
  as `now`.
* Numeric enum constants (`hangouts_pb2.ACTIVE_CLIENT_STATE_IS_ACTIVE`,
  `hangouts_pb2.RESPONSE_STATUS_OK`) come from the generated protobuf module,
  which is outside this repository; only their identity (not their numeric
  value) matters to any claim, so they are fixed as arbitrary distinct
  naturals.
-/

/-- Python exception kinds raised by the code under analysis:
`KeyError` (from `Client._get_cookie`), `IndexError` (from `...email[0]` and
`pblite_message[0]`), and `hangups.exceptions.NetworkError`. -/
inductive PyError where
  | keyError (msg : String)
  | indexError
  | networkError (msg : String)
deriving DecidableEq

/-- `ACTIVE_TIMEOUT_SECS = 120` — timeout sent for setactiveclient requests
(module constant in `client.py`). -/
def ACTIVE_TIMEOUT_SECS : Int := 120

/-- `SETACTIVECLIENT_LIMIT_SECS = 60` — minimum timeout between subsequent
setactiveclient requests (module constant in `client.py`). -/
def SETACTIVECLIENT_LIMIT_SECS : Int := 60

/-- Modelled from the spec: enum constant `ACTIVE_CLIENT_STATE_IS_ACTIVE` of
the external generated module `hangouts_pb2`; its concrete numeric value is
irrelevant to every claim. -/
def ACTIVE_CLIENT_STATE_IS_ACTIVE : Nat := 1

/-- Modelled from the spec: enum constant `RESPONSE_STATUS_OK` of the external
generated module `hangouts_pb2`; its concrete numeric value is irrelevant to
every claim. -/
def RESPONSE_STATUS_OK : Nat := 1

/-- The `hangouts_pb2.RequestHeader` message as populated by
`Client.__init__` and `Client._get_request_header_pb`: a client version
string, a language code, and the optional `client_identifier.resource`
field (absent until set). -/
structure RequestHeader where
  client_version : String
  language_code : String
  resource : Option String
deriving DecidableEq

/-- The mutable state of a `Client` object (the `self._*` attributes used by
the analysed methods). -/
structure ClientState where
  cookies : List (String × String)
  request_header : RequestHeader
  client_id : Option String
  email : Option String
  last_active_secs : Int
  active_client_state : Option Nat
deriving DecidableEq

/-- `Client.__init__(cookies)`: the initial attribute values.  `version` is
the external `hangups.__version__` string. -/
def initial_client_state (cookies : List (String × String)) (version : String) :
    ClientState :=
  { cookies := cookies
    request_header :=
      { client_version := "hangups-" ++ version
        language_code := "en"
        resource := none }
    client_id := none
    email := none
    last_active_secs := 0
    active_client_state := none }

/-- `Client._get_cookie(name)`: return the cookie or raise
`KeyError("Cookie '<name>' is required")`. -/
def get_cookie (cookies : List (String × String)) (name : String) :
    Except PyError String :=
  match cookies.lookup name with
  | some v => .ok v
  | none => .error (PyError.keyError ("Cookie \x27" ++ name ++ "\x27 is required"))

/-- The list `required_cookies = ['SAPISID', 'HSID', 'SSID', 'APISID', 'SID']`
from `Client._base_request`. -/
def required_cookies : List String := ["SAPISID", "HSID", "SSID", "APISID", "SID"]

/-- The dict comprehension
`{cookie: self._get_cookie(cookie) for cookie in required_cookies}`:
evaluated in iteration order, raising on the first missing cookie. -/
def collect_cookies (cookies : List (String × String)) :
    List String → Except PyError (List (String × String))
  | [] => .ok []
  | n :: ns =>
    match get_cookie cookies n with
    | .error e => .error e
    | .ok v =>
      match collect_cookies cookies ns with
      | .error e => .error e
      | .ok rest => .ok ((n, v) :: rest)

/-- One invocation of the external `http_utils.fetch` primitive, as recorded
in the network trace of `Client._base_request`. -/
structure FetchCall where
  method : String
  url : String
  content_type : String
  response_type : String
  cookies : List (String × String)
  data : String
deriving DecidableEq

/-- `Client._base_request(url, content_type, response_type, data)`:
look up the SAPISID cookie (for the authorization header), collect the five
required cookies, then POST.  Result: the list of fetches actually issued and
the exception raised, if any.  The body of the HTTP response is external and
not modelled. -/
def base_request (st : ClientState) (url content_type response_type data : String) :
    List FetchCall × Option PyError :=
  match get_cookie st.cookies "SAPISID" with
  | .error e => ([], some e)
  | .ok _ =>
    match collect_cookies st.cookies required_cookies with
    | .error e => ([], some e)
    | .ok cs =>
      ([{ method := "post", url := url, content_type := content_type,
          response_type := response_type, cookies := cs, data := data }], none)

/-- The `response_header` of every decoded chat API response. -/
structure ResponseHeader where
  status : Nat
  error_description : String
deriving DecidableEq

/-- A decoded protobuf response: its `response_header` plus the
endpoint-specific remainder `body`. -/
structure DecodedResponse (α : Type) where
  response_header : ResponseHeader
  body : α
deriving DecidableEq

/-- The message of the `exceptions.NetworkError` raised by
`Client._pb_request`:
`'Request failed with status {}: \'{}\''.format(status, description)`. -/
def network_error_message (status : Nat) (description : String) : String :=
  "Request failed with status " ++ toString status ++ ": \x27" ++ description ++ "\x27"

/-- The status check at the end of `Client._pb_request`, applied to the
decoded response: raise `NetworkError` when the status is not
`RESPONSE_STATUS_OK`, otherwise the caller gets the decoded response back. -/
def pb_request_check {α : Type} (response_pb : DecodedResponse α) :
    Except PyError (DecodedResponse α) :=
  if response_pb.response_header.status ≠ RESPONSE_STATUS_OK then
    .error (PyError.networkError
      (network_error_message response_pb.response_header.status
        response_pb.response_header.error_description))
  else
    .ok response_pb

/-- `Client._get_request_header_pb()`: if `self._client_id is not None`, set
`self._request_header.client_identifier.resource` to it (a persistent
mutation of the stored header) and return the header. -/
def get_request_header_pb (st : ClientState) : RequestHeader × ClientState :=
  match st.client_id with
  | some cid =>
    let hdr := { st.request_header with resource := some cid }
    (hdr, { st with request_header := hdr })
  | none => (st.request_header, st)

/-- Modelled from the Python standard library: `random.randint(a, b)` returns
an integer N with `a <= N <= b` — both endpoints inclusive.  The `seed`
argument selects which value of the range is produced, so that every value of
the inclusive range is a possible return. -/
def randint (a b seed : Nat) : Nat := a + seed % (b - a + 1)

/-- `Client.get_client_generated_id()`: `random.randint(0, 2**32)`. -/
def get_client_generated_id (seed : Nat) : Nat := randint 0 (2 ^ 32) seed

/-- The `GetSelfInfoResponse` fields read by `Client.set_active`:
`response.self_entity.properties.email` is a repeated (list-valued) string
field. -/
structure GetSelfInfoResponse where
  emails : List String
deriving DecidableEq

/-- One network request issued from inside `Client.set_active`: either the
`getselfinfo` identity lookup or the `setactiveclient` assertion call with
its arguments `(is_active, timeout_secs)` and the computed `full_jid`. -/
inductive NetCall where
  | getselfinfo
  | setactiveclient (is_active : Bool) (timeout_secs : Int) (full_jid : String)
deriving DecidableEq

/-- Result of one `Client.set_active()` invocation: the state after the call,
the network calls issued (in order), and the exception propagated out of the
method, if any. -/
structure SetActiveResult where
  state : ClientState
  calls : List NetCall
  err : Option PyError
deriving DecidableEq

/-- Python `'{}'.format(x)` on an optional string: `None` prints as "None". -/
def format_opt : Option String → String
  | some s => s
  | none => "None"

/-- The tail of `Client.set_active` after the email has been resolved: the
`client_id` guard (log and return when absent) followed by the
`setactiveclient` call, whose `NetworkError` is caught and logged
(`try ... except exceptions.NetworkError`). `sar` is the outcome the network
would give the `setactiveclient` request. -/
def set_active_finish (st : ClientState) (sar : Except String Unit) :
    SetActiveResult :=
  match st.client_id with
  | none => ⟨st, [], none⟩
  | some cid =>
    let full_jid := format_opt st.email ++ "/" ++ cid
    match sar with
    | .ok _ => ⟨st, [NetCall.setactiveclient true ACTIVE_TIMEOUT_SECS full_jid], none⟩
    | .error _ => ⟨st, [NetCall.setactiveclient true ACTIVE_TIMEOUT_SECS full_jid], none⟩

/-- The body of `Client.set_active` that runs once the throttle check has
passed and the optimistic update has been applied (`st1`): resolve the email
via `getselfinfo` when unset, then continue with `set_active_finish`.
`sir` is the outcome the network would give the `getselfinfo` request
(`.error` = the request raised `NetworkError`, which is caught and logged).
A successful lookup whose `email` list is empty makes
`...properties.email[0]` raise an uncaught `IndexError`. -/
def set_active_body (st1 : ClientState) (sir : Except String GetSelfInfoResponse)
    (sar : Except String Unit) : SetActiveResult :=
  match st1.email with
  | some _ => set_active_finish st1 sar
  | none =>
    match sir with
    | .error _ => ⟨st1, [NetCall.getselfinfo], none⟩
    | .ok resp =>
      match resp.emails with
      | [] => ⟨st1, [NetCall.getselfinfo], some PyError.indexError⟩
      | e :: _ =>
        let r := set_active_finish { st1 with email := some e } sar
        ⟨r.state, NetCall.getselfinfo :: r.calls, r.err⟩

/-- `Client.set_active()` at time `now`: if `not is_active or timed_out`,
immediately (before any I/O) set `self._active_client_state` to
`ACTIVE_CLIENT_STATE_IS_ACTIVE` and `self._last_active_secs` to `now`, then
run the request body; otherwise do nothing. -/
def set_active (st : ClientState) (now : Int)
    (sir : Except String GetSelfInfoResponse) (sar : Except String Unit) :
    SetActiveResult :=
  if ¬ st.active_client_state = some ACTIVE_CLIENT_STATE_IS_ACTIVE ∨
      SETACTIVECLIENT_LIMIT_SECS < now - st.last_active_secs then
    set_active_body
      { st with active_client_state := some ACTIVE_CLIENT_STATE_IS_ACTIVE,
                last_active_secs := now } sir sar
  else
    ⟨st, [], none⟩

/-- A sequence of `set_active` invocations at the given times (the same
network oracles at each step), accumulating the network calls; a propagated
exception ends the sequence. -/
def set_active_run (sir : Except String GetSelfInfoResponse)
    (sar : Except String Unit) :
    ClientState → List Int → ClientState × List NetCall
  | st, [] => (st, [])
  | st, t :: ts =>
    let r := set_active st t sir sar
    match r.err with
    | some _ => (r.state, r.calls)
    | none =>
      let rest := set_active_run sir sar r.state ts
      (rest.1, r.calls ++ rest.2)

/-- The first element of the JSON array `json.loads(wrapper['2']['2'])`: in
JSON it is either a string (compared against `'cbu'`) or some non-string
value (for which the Python `== 'cbu'` comparison is simply false). -/
inductive Marker where
  | str (s : String)
  | nonstring
deriving DecidableEq

/-- The `state_update_header` of a `StateUpdate`, carrying the reported
`active_client_state` enum value. -/
structure StateUpdateHeader where
  active_client_state : Nat
deriving DecidableEq

/-- A decoded `StateUpdate` message: its header plus an opaque tag standing
for the event-specific fields (passed through to subscribers unchanged). -/
structure StateUpdate where
  state_update_header : StateUpdateHeader
  event_id : Nat
deriving DecidableEq

/-- The decoded event facet `json.loads(wrapper['2']['2'])` of a push frame:
`first` is the leading element of the JSON array (`none` models an empty
array, on which `pblite_message[0]` raises `IndexError`), and `records` is
the sequence of `StateUpdate` messages the external `pblite` codec decodes
from the remaining elements. -/
structure EventPayload where
  first : Option Marker
  records : List StateUpdate
deriving DecidableEq

/-- The wrapper dictionary `json.loads(array[0]['p'])` with its two optional
facets: `newClientId` is `wrapper['3']['2']` when tag `'3'` is present, and
`event` is the decoded `wrapper['2']['2']` when tag `'2'` is present. -/
structure Wrapper where
  newClientId : Option String
  event : Option EventPayload
deriving DecidableEq

/-- One channel array delivered to `Client._on_receive_array`: either the
`'noop'` keep-alive or a push frame carrying a wrapper. -/
inductive Frame where
  | noop
  | push (w : Wrapper)
deriving DecidableEq

/-- An observable effect of the dispatcher, in execution order:
`sendMaps` is a `self._channel.send_maps(map_list)` call (awaited to
completion), `setActiveState v` is the assignment
`self._active_client_state = header.active_client_state`, `deliver su` is
`yield from self.on_state_update.fire(state_update)` (awaiting every
subscriber), and `logIgnore m` is the `'Ignoring message'` log line. -/
inductive Effect where
  | sendMaps (maps : List (List (String × String)))
  | setActiveState (v : Nat)
  | deliver (su : StateUpdate)
  | logIgnore (m : Marker)
deriving DecidableEq

/-- The JSON text `json.dumps({"3": {"1": {"1": "babel"}}})` sent by
`Client._add_channel_services`. -/
def babel_map_json : String :=
  "\x7b\"3\": \x7b\"1\": \x7b\"1\": \"babel\"\x7d\x7d\x7d"

/-- The `map_list` argument of the single `send_maps` call issued by
`Client._add_channel_services`: one map with key `'p'`. -/
def add_channel_services_map_list : List (List (String × String)) :=
  [[("p", babel_map_json)]]

/-- The `for state_update in batch_update.state_update` loop of
`Client._on_receive_array`: for each record, first assign
`self._active_client_state = header.active_client_state`, then await
`self.on_state_update.fire(state_update)`, then move to the next record. -/
def dispatchRecords (st : ClientState) : List StateUpdate → ClientState × List Effect
  | [] => (st, [])
  | su :: rest =>
    let v := su.state_update_header.active_client_state
    let st1 := { st with active_client_state := some v }
    let r := dispatchRecords st1 rest
    (r.1, Effect.setActiveState v :: Effect.deliver su :: r.2)

/-- Result of dispatching one frame (or a sequence of frames): the state
afterwards, the effects performed in order, and the exception propagated out
of `_on_receive_array`, if any (effects performed before the raise are kept
in the trace). -/
structure DispatchResult where
  state : ClientState
  effects : List Effect
  err : Option PyError
deriving DecidableEq

/-- `Client._on_receive_array(array)`: `'noop'` is ignored; otherwise the
facet `'3'` (new client_id) is handled first — store the id, then await
`self._add_channel_services()` — and only then the facet `'2'` (event
payload): a leading `'cbu'` marker decodes to a batch of `StateUpdate`
records dispatched by `dispatchRecords`; an empty decoded array raises
`IndexError` at `pblite_message[0]`; any other leading marker is logged and
ignored. -/
def on_receive_array (st : ClientState) : Frame → DispatchResult
  | .noop => ⟨st, [], none⟩
  | .push w =>
    let p1 : ClientState × List Effect :=
      match w.newClientId with
      | some cid =>
        ({ st with client_id := some cid },
         [Effect.sendMaps add_channel_services_map_list])
      | none => (st, [])
    match w.event with
    | none => ⟨p1.1, p1.2, none⟩
    | some ep =>
      match ep.first with
      | none => ⟨p1.1, p1.2, some PyError.indexError⟩
      | some m =>
        if m = Marker.str "cbu" then
          let r := dispatchRecords p1.1 ep.records
          ⟨r.1, p1.2 ++ r.2, none⟩
        else
          ⟨p1.1, p1.2 ++ [Effect.logIgnore m], none⟩

/-- Frames processed one after the other, in delivery order, by the single
receive loop; a propagated exception ends the run. -/
def on_receive_arrays (st : ClientState) : List Frame → DispatchResult
  | [] => ⟨st, [], none⟩
  | f :: fs =>
    let r := on_receive_array st f
    match r.err with
    | some e => ⟨r.state, r.effects, some e⟩
    | none =>
      let r2 := on_receive_arrays r.state fs
      ⟨r2.state, r.effects ++ r2.effects, r2.err⟩

/-- Whether an effect is a `send_maps` call (a bootstrap control map). -/
def isSendMaps : Effect → Bool
  | .sendMaps _ => true
  | _ => false

/-- C4: for every RPC through the generic engine and every endpoint, a decoded
response with status `RESPONSE_STATUS_OK` is returned to the caller, and any
other status raises exactly the normalized `NetworkError` carrying the numeric
status and the server-supplied error description (the `Except PyError` result
type of `pb_request_check` shows no other exception kind can surface from the
status check). -/
theorem C4_pb_request_status (α : Type) (resp : DecodedResponse α) :
    (resp.response_header.status = RESPONSE_STATUS_OK →
      pb_request_check resp = .ok resp) ∧
    (resp.response_header.status ≠ RESPONSE_STATUS_OK →
      pb_request_check resp = .error (PyError.networkError
        (network_error_message resp.response_header.status
          resp.response_header.error_description))) := by
  constructor
  · intro h
    simp [pb_request_check, h]
  · intro h
    simp [pb_request_check, h]

/-- C4 witness: the status check evaluated on one OK and one failing concrete
response. -/
theorem C4_pb_request_status_witness :
    pb_request_check (DecodedResponse.mk ⟨RESPONSE_STATUS_OK, ""⟩ (7 : Nat)) =
      .ok (DecodedResponse.mk ⟨RESPONSE_STATUS_OK, ""⟩ (7 : Nat)) ∧
    pb_request_check (DecodedResponse.mk ⟨3, "oops"⟩ (7 : Nat)) =
      .error (PyError.networkError (network_error_message 3 "oops")) :=
  ⟨(C4_pb_request_status Nat (DecodedResponse.mk ⟨RESPONSE_STATUS_OK, ""⟩ 7)).1 rfl,
   (C4_pb_request_status Nat (DecodedResponse.mk ⟨3, "oops"⟩ 7)).2 (by decide)⟩

/-- C10: the header template starts with no `resource`; building a request
header while `client_id` is unknown leaves the header (hence its `resource`)
unchanged, once a `client_id` is known every subsequently built header carries
it as `resource` (a changed id overwrites, the none-branch never clears), and
the static fields `client_version` and `language_code` are never touched. -/
theorem C10_request_header_resource :
    (∀ cookies version, (initial_client_state cookies version).request_header =
      ⟨"hangups-" ++ version, "en", none⟩) ∧
    (∀ st : ClientState, st.client_id = none →
      (get_request_header_pb st).1 = st.request_header) ∧
    (∀ (st : ClientState) (cid : String), st.client_id = some cid →
      (get_request_header_pb st).1.resource = some cid) ∧
    (∀ st : ClientState,
      (get_request_header_pb st).1.client_version = st.request_header.client_version ∧
      (get_request_header_pb st).1.language_code = st.request_header.language_code) := by
  refine ⟨fun c v => rfl, fun st h => ?_, fun st cid h => ?_, fun st => ?_⟩
  · simp [get_request_header_pb, h]
  · simp [get_request_header_pb, h]
  · cases h : st.client_id <;> simp [get_request_header_pb, h]

/-- Sample state for the C10 witness: freshly constructed client. -/
def sampleHeaderState : ClientState := initial_client_state [] "0.3.5"

/-- Sample state for the C10 witness: a client that has a (re)new client_id
while its stored header still carries an old resource. -/
def sampleHeaderState2 : ClientState :=
  { sampleHeaderState with
      client_id := some "res9"
      request_header := { sampleHeaderState.request_header with resource := some "old" } }

/-- C10 witness: the header-building function evaluated on a client with no
client_id and on one whose client_id changed after a reconnect. -/
theorem C10_request_header_resource_witness :
    (get_request_header_pb sampleHeaderState).1 = sampleHeaderState.request_header ∧
    (get_request_header_pb sampleHeaderState2).1.resource = some "res9" :=
  ⟨C10_request_header_resource.2.1 sampleHeaderState rfl,
   C10_request_header_resource.2.2.1 sampleHeaderState2 "res9" rfl⟩

/-- C9 counterexample: `random.randint(0, 2**32)` has an inclusive upper
bound, so the generator can return `2 ^ 32` itself — a value outside
`[0, 2 ^ 32 - 1]`, falsifying the claim that every returned value is a 32-bit
identifier. -/
theorem C9_counterexample :
    ¬ get_client_generated_id (2 ^ 32) ≤ 2 ^ 32 - 1 := by decide

/-- C9 amended: every value returned by `get_client_generated_id` lies in the
inclusive range `[0, 2 ^ 32]` (not `[0, 2 ^ 32 - 1]`), and every value of that
inclusive range — in particular the 33-bit value `2 ^ 32` — is a possible
return. -/
theorem C9_id_range (seed : Nat) :
    get_client_generated_id seed ≤ 2 ^ 32 ∧
    (seed ≤ 2 ^ 32 → get_client_generated_id seed = seed) := by
  unfold get_client_generated_id randint
  rw [Nat.sub_zero, Nat.zero_add]
  constructor
  · exact Nat.lt_succ_iff.mp (Nat.mod_lt _ (Nat.succ_pos _))
  · intro h
    exact Nat.mod_eq_of_lt (Nat.lt_succ_iff.mpr h)

/-- C9 amended witness: the generator evaluated at the extreme seed and at a
small seed. -/
theorem C9_id_range_witness :
    get_client_generated_id (2 ^ 32) ≤ 2 ^ 32 ∧ get_client_generated_id 5 = 5 :=
  ⟨(C9_id_range (2 ^ 32)).1, (C9_id_range 5).2 (by decide)⟩

/-- Whether a (possibly absent) exception is a `KeyError` (Python's
configuration-kind failure for a missing dict entry). -/
def errIsKeyError : Option PyError → Bool
  | some (PyError.keyError _) => true
  | _ => false

/-- Whether a (possibly absent) exception is a `NetworkError`. -/
def errIsNetworkError : Option PyError → Bool
  | some (PyError.networkError _) => true
  | _ => false

/-- If any cookie of the list is absent from the dictionary, the cookie
comprehension raises a `KeyError` (the one of the first absent cookie). -/
theorem collect_cookies_missing (cookies : List (String × String)) :
    ∀ (ns : List String) (name : String), name ∈ ns → cookies.lookup name = none →
      ∃ m, collect_cookies cookies ns = .error (PyError.keyError m) := by
  intro ns
  induction ns with
  | nil =>
    intro name h
    cases h
  | cons n ns ih =>
    intro name hmem hnone
    by_cases hn : cookies.lookup n = none
    · exact ⟨"Cookie \x27" ++ n ++ "\x27 is required",
        by simp [collect_cookies, get_cookie, hn]⟩
    · obtain ⟨v, hv⟩ := Option.ne_none_iff_exists'.mp hn
      have hmem' : name ∈ ns := by
        cases hmem with
        | head => exact absurd hnone hn
        | tail _ h => exact h
      obtain ⟨m, hm⟩ := ih name hmem' hnone
      exact ⟨m, by simp [collect_cookies, get_cookie, hv, hm]⟩

/-- C5: if any of the five required cookies is absent from the supplied cookie
dictionary, `_base_request` performs no fetch at all and raises a `KeyError`
(a configuration-kind failure), not a `NetworkError`. -/
theorem C5_missing_cookie_fails_fast (st : ClientState)
    (url ct rt data name : String) (hmem : name ∈ required_cookies)
    (hnone : st.cookies.lookup name = none) :
    (base_request st url ct rt data).1 = [] ∧
    errIsKeyError (base_request st url ct rt data).2 = true ∧
    errIsNetworkError (base_request st url ct rt data).2 = false := by
  by_cases hs : st.cookies.lookup "SAPISID" = none
  · simp [base_request, get_cookie, hs, errIsKeyError, errIsNetworkError]
  · obtain ⟨v, hv⟩ := Option.ne_none_iff_exists'.mp hs
    obtain ⟨m, hm⟩ := collect_cookies_missing st.cookies required_cookies name hmem hnone
    simp [base_request, get_cookie, hv, hm, errIsKeyError, errIsNetworkError]

/-- Sample state for the C5 witness: all required cookies except SID. -/
def missingSIDState : ClientState :=
  initial_client_state
    [("SAPISID", "a"), ("HSID", "b"), ("SSID", "c"), ("APISID", "d")] "1"

/-- C5 witness: an RPC attempted with the SID cookie missing records no fetch
and fails with a `KeyError`. -/
theorem C5_missing_cookie_fails_fast_witness :
    (base_request missingSIDState "u" "ct" "rt" "d").1 = [] ∧
    errIsKeyError (base_request missingSIDState "u" "ct" "rt" "d").2 = true ∧
    errIsNetworkError (base_request missingSIDState "u" "ct" "rt" "d").2 = false :=
  C5_missing_cookie_fails_fast missingSIDState "u" "ct" "rt" "d" "SID"
    (by decide) (by decide)

/-- The record loop emits, for each record in order, the state overwrite
followed by the delivery of that record. -/
theorem dispatchRecords_effects (rs : List StateUpdate) : ∀ st : ClientState,
    (dispatchRecords st rs).2 = rs.flatMap fun u =>
      [Effect.setActiveState u.state_update_header.active_client_state,
       Effect.deliver u] := by
  induction rs with
  | nil => intro st; rfl
  | cons u us ih =>
    intro st
    simp [dispatchRecords, ih]

/-- The record loop's only state change is the last-write-wins overwrite of
`active_client_state` by the final record (no change for an empty batch). -/
theorem dispatchRecords_state (rs : List StateUpdate) : ∀ st : ClientState,
    (dispatchRecords st rs).1 =
      (match rs.getLast? with
       | none => st
       | some u =>
         { st with active_client_state := some u.state_update_header.active_client_state }) := by
  induction rs with
  | nil => intro st; rfl
  | cons u us ih =>
    intro st
    cases us with
    | nil => rfl
    | cons v vs =>
      rw [List.getLast?_cons_cons]
      have h := ih
        { st with active_client_state := some u.state_update_header.active_client_state }
      simp only [dispatchRecords] at h ⊢
      rw [h]
      cases hg : (v :: vs).getLast? with
      | none => simp at hg
      | some w => rfl

/-- The record loop itself never sends a control map. -/
theorem dispatchRecords_no_sendMaps (rs : List StateUpdate) : ∀ st : ClientState,
    (dispatchRecords st rs).2.countP isSendMaps = 0 := by
  induction rs with
  | nil => intro st; rfl
  | cons u us ih =>
    intro st
    simp [dispatchRecords, isSendMaps, List.countP_cons, ih]

/-- The record loop never touches `client_id`. -/
theorem dispatchRecords_client_id (rs : List StateUpdate) (st : ClientState) :
    (dispatchRecords st rs).1.client_id = st.client_id := by
  rw [dispatchRecords_state rs st]
  cases rs.getLast? <;> rfl

/-- Frames are processed strictly one after the other: when a frame completes
without raising, its effects precede all effects of subsequently received
frames. -/
theorem on_receive_arrays_cons (st : ClientState) (f : Frame) (fs : List Frame)
    (h : (on_receive_array st f).err = none) :
    (on_receive_arrays st (f :: fs)).effects =
      (on_receive_array st f).effects ++
      (on_receive_arrays (on_receive_array st f).state fs).effects := by
  simp [on_receive_arrays, h]

/-- C1: a push frame whose event payload leads with the `'cbu'` marker and
decodes to records `rs` is dispatched without raising; its effect trace is
(after the bootstrap effect of an optional new-client_id facet) exactly, for
each record in batch order, the overwrite of the session's active-client
state by that record's header value immediately followed by the delivery of
that record to the subscribers — the single sequential trace means each
delivery completes before the next record is touched — and afterwards the
session's active-client state equals the last record's reported state. -/
theorem C1_batch_processed_in_order (st : ClientState) (w : Wrapper)
    (rs : List StateUpdate)
    (hev : w.event = some ⟨some (Marker.str "cbu"), rs⟩) (hne : rs ≠ []) :
    (on_receive_array st (Frame.push w)).err = none ∧
    (on_receive_array st (Frame.push w)).effects =
      (match w.newClientId with
       | some _ => [Effect.sendMaps add_channel_services_map_list]
       | none => []) ++
      rs.flatMap (fun u =>
        [Effect.setActiveState u.state_update_header.active_client_state,
         Effect.deliver u]) ∧
    (on_receive_array st (Frame.push w)).state.active_client_state =
      rs.getLast?.map (fun u => u.state_update_header.active_client_state) := by
  obtain ⟨u, hu⟩ : ∃ u, rs.getLast? = some u := by
    cases hg : rs.getLast? with
    | none => exact absurd (List.getLast?_eq_none_iff.mp hg) hne
    | some u => exact ⟨u, rfl⟩
  cases hcid : w.newClientId with
  | none =>
    simp [on_receive_array, hev, hcid, dispatchRecords_effects,
      dispatchRecords_state, hu]
  | some cid =>
    simp [on_receive_array, hev, hcid, dispatchRecords_effects,
      dispatchRecords_state, hu]

/-- Two-record batch for the C1 witness, reporting active states 1 then 0. -/
def sampleRecords : List StateUpdate := [⟨⟨1⟩, 10⟩, ⟨⟨0⟩, 11⟩]

/-- Push wrapper for the C1 witness: a `'cbu'` batch, no new client_id. -/
def sampleBatchWrapper : Wrapper :=
  { newClientId := none, event := some ⟨some (Marker.str "cbu"), sampleRecords⟩ }

/-- Freshly constructed client used by the dispatcher witnesses. -/
def sampleDispatchState : ClientState := initial_client_state [] "1"

/-- C1 witness: the dispatcher evaluated on a concrete two-record batch. -/
theorem C1_batch_processed_in_order_witness :
    (on_receive_array sampleDispatchState (Frame.push sampleBatchWrapper)).err = none ∧
    (on_receive_array sampleDispatchState (Frame.push sampleBatchWrapper)).effects =
      (match sampleBatchWrapper.newClientId with
       | some _ => [Effect.sendMaps add_channel_services_map_list]
       | none => []) ++
      sampleRecords.flatMap (fun u =>
        [Effect.setActiveState u.state_update_header.active_client_state,
         Effect.deliver u]) ∧
    (on_receive_array sampleDispatchState (Frame.push sampleBatchWrapper)).state.active_client_state =
      sampleRecords.getLast?.map (fun u => u.state_update_header.active_client_state) :=
  C1_batch_processed_in_order sampleDispatchState sampleBatchWrapper sampleRecords
    rfl (by decide)

/-- C2: a push frame carrying a new-session-id facet stores the id in the
session (replacing any prior value), and its very first effect — before any
effect of the same frame's event facet — is the single bootstrap
`send_maps` call carrying the one channel-services subscription map; no
further control map is sent by the rest of the frame, and when the frame
completes normally its whole trace precedes the processing of every
subsequently received frame. -/
theorem C2_new_client_id_bootstrap (st : ClientState) (w : Wrapper) (cid : String)
    (h : w.newClientId = some cid) :
    (on_receive_array st (Frame.push w)).state.client_id = some cid ∧
    (on_receive_array st (Frame.push w)).effects.head? =
      some (Effect.sendMaps add_channel_services_map_list) ∧
    (on_receive_array st (Frame.push w)).effects.tail.countP isSendMaps = 0 ∧
    add_channel_services_map_list.length = 1 ∧
    ((on_receive_array st (Frame.push w)).err = none → ∀ fs : List Frame,
      (on_receive_arrays st (Frame.push w :: fs)).effects =
        (on_receive_array st (Frame.push w)).effects ++
        (on_receive_arrays (on_receive_array st (Frame.push w)).state fs).effects) := by
  have hmain : (on_receive_array st (Frame.push w)).state.client_id = some cid ∧
      (on_receive_array st (Frame.push w)).effects.head? =
        some (Effect.sendMaps add_channel_services_map_list) ∧
      (on_receive_array st (Frame.push w)).effects.tail.countP isSendMaps = 0 := by
    cases hev : w.event with
    | none => simp [on_receive_array, h, hev]
    | some ep =>
      cases hf : ep.first with
      | none => simp [on_receive_array, h, hev, hf]
      | some m =>
        by_cases hm : m = Marker.str "cbu"
        · subst hm
          simp [on_receive_array, h, hev, hf, dispatchRecords_client_id,
            dispatchRecords_no_sendMaps]
        · simp [on_receive_array, h, hev, hf, hm, isSendMaps, List.countP_cons]
  exact ⟨hmain.1, hmain.2.1, hmain.2.2, rfl,
    fun herr fs => on_receive_arrays_cons st _ fs herr⟩

/-- Push wrapper for the C2 witness: a new client_id and no event facet. -/
def sampleIdWrapper : Wrapper := { newClientId := some "cid-42", event := none }

/-- C2 witness: the dispatcher evaluated on a concrete new-session-id frame,
followed by one further frame. -/
theorem C2_new_client_id_bootstrap_witness :
    (on_receive_array sampleDispatchState (Frame.push sampleIdWrapper)).state.client_id =
      some "cid-42" ∧
    (on_receive_array sampleDispatchState (Frame.push sampleIdWrapper)).effects.head? =
      some (Effect.sendMaps add_channel_services_map_list) ∧
    (on_receive_array sampleDispatchState (Frame.push sampleIdWrapper)).effects.tail.countP
      isSendMaps = 0 ∧
    add_channel_services_map_list.length = 1 ∧
    (on_receive_arrays sampleDispatchState [Frame.push sampleIdWrapper, Frame.noop]).effects =
      (on_receive_array sampleDispatchState (Frame.push sampleIdWrapper)).effects ++
      (on_receive_arrays (on_receive_array sampleDispatchState
        (Frame.push sampleIdWrapper)).state [Frame.noop]).effects := by
  have t := C2_new_client_id_bootstrap sampleDispatchState sampleIdWrapper "cid-42" rfl
  exact ⟨t.1, t.2.1, t.2.2.1, t.2.2.2.1, t.2.2.2.2 (by decide) [Frame.noop]⟩

/-- C8 counterexample: a malformed event payload — one whose JSON text
decodes to an empty array — is not logged-and-ignored: `_on_receive_array`
raises an `IndexError` at `pblite_message[0]`, falsifying the claim that the
dispatcher returns normally for every malformed payload. -/
theorem C8_counterexample :
    (on_receive_array (initial_client_state [] "1")
      (Frame.push ⟨none, some ⟨none, []⟩⟩)).err ≠ none := by decide

/-- C8 amended: a payload whose decoded array leads with an unrecognized
marker is logged and ignored — the dispatcher returns normally, delivers no
record, sends nothing, and leaves the session state unchanged — but a
payload with a malformed shape (its JSON decodes to an empty array) makes the
dispatcher raise an uncaught `IndexError` instead of ignoring it. -/
theorem C8_unknown_marker_ignored :
    (∀ (st : ClientState) (m : Marker) (rs : List StateUpdate),
      m ≠ Marker.str "cbu" →
      on_receive_array st (Frame.push ⟨none, some ⟨some m, rs⟩⟩) =
        ⟨st, [Effect.logIgnore m], none⟩) ∧
    (∀ (st : ClientState) (rs : List StateUpdate),
      on_receive_array st (Frame.push ⟨none, some ⟨none, rs⟩⟩) =
        ⟨st, [], some PyError.indexError⟩) := by
  constructor
  · intro st m rs hm
    simp [on_receive_array, hm]
  · intro st rs
    rfl

/-- C8 amended witness: a concrete frame with the unknown marker `'xyz'` is
ignored without any state change. -/
theorem C8_unknown_marker_ignored_witness :
    on_receive_array sampleDispatchState
      (Frame.push ⟨none, some ⟨some (Marker.str "xyz"), []⟩⟩) =
      ⟨sampleDispatchState, [Effect.logIgnore (Marker.str "xyz")], none⟩ :=
  C8_unknown_marker_ignored.1 sampleDispatchState (Marker.str "xyz") [] (by decide)

/-- The tail of `set_active` never mutates the state. -/
theorem set_active_finish_state (st : ClientState) (sar : Except String Unit) :
    (set_active_finish st sar).state = st := by
  cases hcid : st.client_id <;> cases sar <;> simp [set_active_finish, hcid]

/-- The tail of `set_active` propagates no exception: the `setactiveclient`
`NetworkError` is caught and only logged. -/
theorem set_active_finish_err (st : ClientState) (sar : Except String Unit) :
    (set_active_finish st sar).err = none := by
  cases hcid : st.client_id <;> cases sar <;> simp [set_active_finish, hcid]

/-- The tail of `set_active` issues at most one network call. -/
theorem set_active_finish_calls_len (st : ClientState) (sar : Except String Unit) :
    (set_active_finish st sar).calls.length ≤ 1 := by
  cases hcid : st.client_id <;> cases sar <;> simp [set_active_finish, hcid]

/-- Without a client_id, the tail of `set_active` returns before issuing the
`setactiveclient` call. -/
theorem set_active_finish_calls_none (st : ClientState) (sar : Except String Unit)
    (h : st.client_id = none) : (set_active_finish st sar).calls = [] := by
  cases sar <;> simp [set_active_finish, h]

/-- With a client_id, the tail of `set_active` issues exactly the
`setactiveclient(True, ACTIVE_TIMEOUT_SECS)` call for the full JID
`email/client_id` (whether or not the request then fails). -/
theorem set_active_finish_calls_some (st : ClientState) (sar : Except String Unit)
    (cid : String) (h : st.client_id = some cid) :
    (set_active_finish st sar).calls =
      [NetCall.setactiveclient true ACTIVE_TIMEOUT_SECS
        (format_opt st.email ++ "/" ++ cid)] := by
  cases sar <;> simp [set_active_finish, h]

/-- When the email is already resolved, the body of `set_active` skips the
identity lookup entirely. -/
theorem set_active_body_of_email (st1 : ClientState) (e : String)
    (sir : Except String GetSelfInfoResponse) (sar : Except String Unit)
    (h : st1.email = some e) :
    set_active_body st1 sir sar = set_active_finish st1 sar := by
  simp [set_active_body, h]

/-- The body of `set_active` never changes `active_client_state` or
`last_active_secs` (it can only memoize the email), whatever the two network
requests return. -/
theorem set_active_body_state (st1 : ClientState)
    (sir : Except String GetSelfInfoResponse) (sar : Except String Unit) :
    (set_active_body st1 sir sar).state.active_client_state = st1.active_client_state ∧
    (set_active_body st1 sir sar).state.last_active_secs = st1.last_active_secs := by
  cases he : st1.email with
  | some e =>
    rw [set_active_body_of_email st1 e sir sar he, set_active_finish_state]
    exact ⟨rfl, rfl⟩
  | none =>
    cases sir with
    | error s => simp [set_active_body, he]
    | ok resp =>
      cases hr : resp.emails with
      | nil => simp [set_active_body, he, hr]
      | cons e rest => simp [set_active_body, he, hr, set_active_finish_state]

/-- When the client is already marked active and the 60-second limit has not
elapsed, `set_active` does nothing at all: no state change, no network call,
no exception. -/
theorem set_active_noop (st : ClientState) (now : Int)
    (sir : Except String GetSelfInfoResponse) (sar : Except String Unit)
    (hact : st.active_client_state = some ACTIVE_CLIENT_STATE_IS_ACTIVE)
    (htime : now - st.last_active_secs ≤ SETACTIVECLIENT_LIMIT_SECS) :
    set_active st now sir sar = ⟨st, [], none⟩ := by
  have hcond : ¬ (¬ st.active_client_state = some ACTIVE_CLIENT_STATE_IS_ACTIVE ∨
      SETACTIVECLIENT_LIMIT_SECS < now - st.last_active_secs) := by
    push_neg
    exact ⟨hact, htime⟩
  unfold set_active
  rw [if_neg hcond]

/-- When the throttle check passes, `set_active` first applies the optimistic
update of `active_client_state` and `last_active_secs` and only then runs the
request body. -/
theorem set_active_fire (st : ClientState) (now : Int)
    (sir : Except String GetSelfInfoResponse) (sar : Except String Unit)
    (hcond : ¬ st.active_client_state = some ACTIVE_CLIENT_STATE_IS_ACTIVE ∨
      SETACTIVECLIENT_LIMIT_SECS < now - st.last_active_secs) :
    set_active st now sir sar =
      set_active_body
        { st with active_client_state := some ACTIVE_CLIENT_STATE_IS_ACTIVE,
                  last_active_secs := now } sir sar := by
  unfold set_active
  rw [if_pos hcond]

/-- A run of `set_active` invocations all within the 60-second limit of an
already-active client performs no work at all. -/
theorem set_active_run_quiet (sir : Except String GetSelfInfoResponse)
    (sar : Except String Unit) (ts : List Int) : ∀ st : ClientState,
    st.active_client_state = some ACTIVE_CLIENT_STATE_IS_ACTIVE →
    (∀ t ∈ ts, t - st.last_active_secs ≤ SETACTIVECLIENT_LIMIT_SECS) →
    set_active_run sir sar st ts = (st, []) := by
  induction ts with
  | nil =>
    intro st _ _
    rfl
  | cons t ts ih =>
    intro st hact hb
    have h1 : set_active st t sir sar = ⟨st, [], none⟩ :=
      set_active_noop st t sir sar hact (hb t (List.mem_cons_self t ts))
    have h2 := ih st hact (fun u hu => hb u (List.mem_cons_of_mem t hu))
    simp [set_active_run, h1, h2]

/-- Any number of `set_active` invocations whose times are nondecreasing and
pairwise within the 60-second limit, starting from an already-active client
with the email memoized, issue at most one network call in total. -/
theorem set_active_run_calls_le_one (sir : Except String GetSelfInfoResponse)
    (sar : Except String Unit) (ts : List Int) :
    ∀ (st : ClientState) (e : String), st.email = some e →
    st.active_client_state = some ACTIVE_CLIENT_STATE_IS_ACTIVE →
    ts.Pairwise (fun a b => a ≤ b ∧ b - a ≤ SETACTIVECLIENT_LIMIT_SECS) →
    (set_active_run sir sar st ts).2.length ≤ 1 := by
  induction ts with
  | nil =>
    intro st e _ _ _
    simp [set_active_run]
  | cons t ts ih =>
    intro st e hem hact hp
    rw [List.pairwise_cons] at hp
    by_cases ht : SETACTIVECLIENT_LIMIT_SECS < t - st.last_active_secs
    · have hfire := set_active_fire st t sir sar (Or.inr ht)
      have hbody := set_active_body_of_email
        { st with active_client_state := some ACTIVE_CLIENT_STATE_IS_ACTIVE,
                  last_active_secs := t } e sir sar hem
      have herr := set_active_finish_err
        { st with active_client_state := some ACTIVE_CLIENT_STATE_IS_ACTIVE,
                  last_active_secs := t } sar
      have hstate := set_active_finish_state
        { st with active_client_state := some ACTIVE_CLIENT_STATE_IS_ACTIVE,
                  last_active_secs := t } sar
      have hquiet : set_active_run sir sar
          { st with active_client_state := some ACTIVE_CLIENT_STATE_IS_ACTIVE,
                    last_active_secs := t } ts =
          ({ st with active_client_state := some ACTIVE_CLIENT_STATE_IS_ACTIVE,
                     last_active_secs := t }, []) := by
        apply set_active_run_quiet sir sar ts _ rfl
        intro u hu
        exact (hp.1 u hu).2
      have hlen := set_active_finish_calls_len
        { st with active_client_state := some ACTIVE_CLIENT_STATE_IS_ACTIVE,
                  last_active_secs := t } sar
      simp [set_active_run, hfire, hbody, herr, hstate, hquiet]
      exact hlen
    · have h1 := set_active_noop st t sir sar hact (not_lt.mp ht)
      have h2 := ih st e hem hact hp.2
      simp [set_active_run, h1]
      exact h2

/-- C3: `set_active` makes a network request only when the stored state is
not ACTIVE or more than 60 seconds have passed since `last_active_secs`
(otherwise it returns immediately, untouched); whenever it proceeds, the
state is optimistically set to ACTIVE with `last_active_secs = now` before —
and regardless of the outcome of — any I/O; N invocations within a
60-second window while already ACTIVE (identity already resolved) issue at
most one network call in total; and a single invocation while not ACTIVE,
with email and client_id available, issues exactly the one active-client
assertion call for `email/client_id`. -/
theorem C3_set_active_throttled :
    (∀ (st : ClientState) (now : Int) (sir : Except String GetSelfInfoResponse)
        (sar : Except String Unit),
      st.active_client_state = some ACTIVE_CLIENT_STATE_IS_ACTIVE →
      now - st.last_active_secs ≤ SETACTIVECLIENT_LIMIT_SECS →
      set_active st now sir sar = ⟨st, [], none⟩) ∧
    (∀ (st : ClientState) (now : Int) (sir : Except String GetSelfInfoResponse)
        (sar : Except String Unit),
      (¬ st.active_client_state = some ACTIVE_CLIENT_STATE_IS_ACTIVE ∨
        SETACTIVECLIENT_LIMIT_SECS < now - st.last_active_secs) →
      (set_active st now sir sar).state.active_client_state =
        some ACTIVE_CLIENT_STATE_IS_ACTIVE ∧
      (set_active st now sir sar).state.last_active_secs = now) ∧
    (∀ (sir : Except String GetSelfInfoResponse) (sar : Except String Unit)
        (ts : List Int) (st : ClientState) (e : String),
      st.email = some e →
      st.active_client_state = some ACTIVE_CLIENT_STATE_IS_ACTIVE →
      ts.Pairwise (fun a b => a ≤ b ∧ b - a ≤ SETACTIVECLIENT_LIMIT_SECS) →
      (set_active_run sir sar st ts).2.length ≤ 1) ∧
    (∀ (st : ClientState) (now : Int) (sir : Except String GetSelfInfoResponse)
        (sar : Except String Unit) (e cid : String),
      ¬ st.active_client_state = some ACTIVE_CLIENT_STATE_IS_ACTIVE →
      st.email = some e → st.client_id = some cid →
      (set_active st now sir sar).calls =
        [NetCall.setactiveclient true ACTIVE_TIMEOUT_SECS (e ++ "/" ++ cid)]) := by
  refine ⟨set_active_noop, ?_, set_active_run_calls_le_one, ?_⟩
  · intro st now sir sar hcond
    rw [set_active_fire st now sir sar hcond]
    have h := set_active_body_state
      { st with active_client_state := some ACTIVE_CLIENT_STATE_IS_ACTIVE,
                last_active_secs := now } sir sar
    exact ⟨h.1, h.2⟩
  · intro st now sir sar e cid hnact hem hcid
    rw [set_active_fire st now sir sar (Or.inl hnact)]
    rw [set_active_body_of_email
      { st with active_client_state := some ACTIVE_CLIENT_STATE_IS_ACTIVE,
                last_active_secs := now } e sir sar hem]
    rw [set_active_finish_calls_some
      { st with active_client_state := some ACTIVE_CLIENT_STATE_IS_ACTIVE,
                last_active_secs := now } sar cid hcid]
    simp [format_opt, hem]

/-- A resolved-email, currently-active client for the heartbeat witnesses. -/
def emailActiveState : ClientState :=
  { initial_client_state [] "1" with
      email := some "a@b.c"
      active_client_state := some ACTIVE_CLIENT_STATE_IS_ACTIVE
      last_active_secs := 0 }

/-- A resolved-email, not-yet-active client with a client_id, for the
heartbeat witnesses. -/
def emailInactiveState : ClientState :=
  { initial_client_state [] "1" with
      email := some "a@b.c"
      client_id := some "cid9" }

/-- A `getselfinfo` outcome that raises `NetworkError`. -/
def sirErr : Except String GetSelfInfoResponse := .error "net down"

/-- A successful `setactiveclient` outcome. -/
def sarOk : Except String Unit := .ok ()

/-- C3 witness: the four throttling facts evaluated on concrete states — a
no-op call at t=10 on an active client, an optimistic update on an inactive
client, a two-call run at t=61 and t=70, and the exact single assertion call
of an inactive client. -/
theorem C3_set_active_throttled_witness :
    set_active emailActiveState 10 sirErr sarOk = ⟨emailActiveState, [], none⟩ ∧
    ((set_active emailInactiveState 5 sirErr sarOk).state.active_client_state =
        some ACTIVE_CLIENT_STATE_IS_ACTIVE ∧
      (set_active emailInactiveState 5 sirErr sarOk).state.last_active_secs = 5) ∧
    (set_active_run sirErr sarOk emailActiveState [61, 70]).2.length ≤ 1 ∧
    (set_active emailInactiveState 5 sirErr sarOk).calls =
      [NetCall.setactiveclient true ACTIVE_TIMEOUT_SECS ("a@b.c" ++ "/" ++ "cid9")] :=
  ⟨C3_set_active_throttled.1 emailActiveState 10 sirErr sarOk (by decide) (by decide),
   C3_set_active_throttled.2.1 emailInactiveState 5 sirErr sarOk (Or.inl (by decide)),
   C3_set_active_throttled.2.2.1 sirErr sarOk [61, 70] emailActiveState "a@b.c"
     (by decide) (by decide) (by decide),
   C3_set_active_throttled.2.2.2 emailInactiveState 5 sirErr sarOk "a@b.c" "cid9"
     (by decide) (by decide) (by decide)⟩

/-- A successful `getselfinfo` outcome carrying one email address. -/
def sirOkEmail : Except String GetSelfInfoResponse := .ok ⟨["a@b.c"]⟩

/-- C6 counterexample: `set_active` on a client with no client_id (and no
email yet) does issue a network call — the `getselfinfo` identity lookup runs
before the client_id guard — and leaves the active-client state set to
ACTIVE, not unset: both halves of the claim fail. -/
theorem C6_counterexample :
    (set_active (initial_client_state [] "1") 1 sirOkEmail sarOk).calls ≠ [] ∧
    (set_active (initial_client_state [] "1") 1 sirOkEmail
      sarOk).state.active_client_state ≠ none := by
  decide

/-- C6 amended: while the client_id has not been received, `set_active` never
issues the active-client assertion call — each invocation issues either no
network call at all or exactly the one `getselfinfo` identity lookup — but
(contrary to the original claim) a throttle-passing invocation does
optimistically set the stored active-client state to ACTIVE rather than
leaving it unset. -/
theorem C6_no_assert_without_client_id :
    (∀ (st : ClientState) (now : Int) (sir : Except String GetSelfInfoResponse)
        (sar : Except String Unit), st.client_id = none →
      (set_active st now sir sar).calls = [] ∨
      (set_active st now sir sar).calls = [NetCall.getselfinfo]) ∧
    (∀ (st : ClientState) (now : Int) (sir : Except String GetSelfInfoResponse)
        (sar : Except String Unit),
      (¬ st.active_client_state = some ACTIVE_CLIENT_STATE_IS_ACTIVE ∨
        SETACTIVECLIENT_LIMIT_SECS < now - st.last_active_secs) →
      (set_active st now sir sar).state.active_client_state =
        some ACTIVE_CLIENT_STATE_IS_ACTIVE) := by
  constructor
  · intro st now sir sar h
    unfold set_active
    split
    · cases he : st.email with
      | some e =>
        rw [set_active_body_of_email
          { st with email := some e,
                    active_client_state := some ACTIVE_CLIENT_STATE_IS_ACTIVE,
                    last_active_secs := now } e sir sar rfl]
        rw [set_active_finish_calls_none
          { st with email := some e,
                    active_client_state := some ACTIVE_CLIENT_STATE_IS_ACTIVE,
                    last_active_secs := now } sar h]
        exact Or.inl rfl
      | none =>
        cases sir with
        | error s => simp [set_active_body, he]
        | ok resp =>
          cases hr : resp.emails with
          | nil => simp [set_active_body, he, hr]
          | cons e rest =>
            simp [set_active_body, he, hr, set_active_finish_calls_none, h]
    · exact Or.inl rfl
  · intro st now sir sar hcond
    rw [set_active_fire st now sir sar hcond]
    exact (set_active_body_state
      { st with active_client_state := some ACTIVE_CLIENT_STATE_IS_ACTIVE,
                last_active_secs := now } sir sar).1

/-- C6 amended witness: the two amended facts evaluated on a concrete
client with no client_id. -/
theorem C6_no_assert_without_client_id_witness :
    ((set_active (initial_client_state [] "1") 1 sirOkEmail sarOk).calls = [] ∨
      (set_active (initial_client_state [] "1") 1 sirOkEmail sarOk).calls =
        [NetCall.getselfinfo]) ∧
    (set_active (initial_client_state [] "1") 1 sirOkEmail
      sarOk).state.active_client_state = some ACTIVE_CLIENT_STATE_IS_ACTIVE :=
  ⟨C6_no_assert_without_client_id.1 (initial_client_state [] "1") 1 sirOkEmail
      sarOk rfl,
   C6_no_assert_without_client_id.2 (initial_client_state [] "1") 1 sirOkEmail
      sarOk (Or.inl (by decide))⟩

/-- A successful `getselfinfo` outcome whose email list is empty. -/
def sirEmptyEmails : Except String GetSelfInfoResponse := .ok ⟨[]⟩

/-- C7 counterexample: a `getselfinfo` response that succeeds but carries an
empty email list makes `set_active` propagate an uncaught `IndexError` (from
`...properties.email[0]`), falsifying the claim that no exception of any kind
escapes `set_active`. -/
theorem C7_counterexample :
    (set_active (initial_client_state [] "1") 1 sirEmptyEmails sarOk).err ≠ none := by
  decide

/-- C7 amended: every `NetworkError` arising inside `set_active` — whether
from the `getselfinfo` identity lookup or from the `setactiveclient`
assertion call — is caught, logged and swallowed, and `set_active` raises
nothing, except in the one uncovered case excluded here: a successful
identity lookup whose email list is empty raises an uncaught `IndexError`. -/
theorem C7_errors_swallowed (st : ClientState) (now : Int)
    (sir : Except String GetSelfInfoResponse) (sar : Except String Unit)
    (hok : st.email = none → ∀ resp, sir = .ok resp → resp.emails ≠ []) :
    (set_active st now sir sar).err = none := by
  unfold set_active
  split
  · cases he : st.email with
    | some e =>
      rw [set_active_body_of_email
        { st with email := some e,
                  active_client_state := some ACTIVE_CLIENT_STATE_IS_ACTIVE,
                  last_active_secs := now } e sir sar rfl]
      exact set_active_finish_err _ sar
    | none =>
      cases hs : sir with
      | error s => simp [set_active_body, he]
      | ok resp =>
        cases hr : resp.emails with
        | nil => exact absurd hr (hok he resp hs)
        | cons e rest => simp [set_active_body, he, hr, set_active_finish_err]
  · rfl

/-- C7 amended witness: a `set_active` whose identity lookup succeeds with a
nonempty email list (and whose assertion call succeeds) raises nothing; a
second check with the lookup failing as a `NetworkError` also raises
nothing. -/
theorem C7_errors_swallowed_witness :
    (set_active (initial_client_state [] "1") 1 sirOkEmail sarOk).err = none ∧
    (set_active (initial_client_state [] "1") 1 sirErr sarOk).err = none :=
  ⟨C7_errors_swallowed (initial_client_state [] "1") 1 sirOkEmail sarOk
      (fun _ resp hresp => by cases hresp; decide),
   C7_errors_swallowed (initial_client_state [] "1") 1 sirErr sarOk
      (fun _ resp hresp => by cases hresp)⟩
